import Mathlib

/-
  Shallow embedding of src/hpc_ds_utils/jlab_connector.py.

  The remote-execution channel (`run_command` over `ssh -tt`) is modelled by an
  oracle (`Host`): for each command site it records either the captured stdout
  (command exited zero) or `none` (non-zero exit, i.e. subprocess raised
  CalledProcessError).  Every `run_command`/`subprocess.run` invocation of the
  Python code is recorded as an `Event` in an explicit trace, in program order.
  Python exceptions are modelled by `Except Err`.
-/

namespace HpcDsUtils

/-- Events: one constructor per `run_command` call site of jlab_connector.py,
plus the local-machine side effects (`time.sleep`, local `lsof`,
`webbrowser.open_new_tab`).  `startCmd` carries the full command string built
by `ssh_minus_tt`, since `start_jupyter_server_remote` runs a list of them. -/
inductive Event where
  | checkBashConda : Event
  | checkCondaInit : Event
  | createBashConda : Event
  | copyCondaInit : Event
  | serverList (conda_env : String) : Event
  | condaEnvList : Event
  | tmuxLs : Event
  | killSession (name : String) : Event
  | remoteLsof (p : Nat) : Event
  | localLsof (p : Nat) : Event
  | startCmd (s : String) : Event
  | forward (p_local p_remote : Nat) : Event
  | sleep (t : Nat) : Event
  | openBrowser (p : Nat) : Event
  deriving Repr, DecidableEq

/-- Whether an event is a command issued on the remote host (everything except
the local port query, the local sleep, and opening the local browser). -/
def Event.isRemote : Event → Bool
  | .localLsof _ => false
  | .sleep _ => false
  | .openBrowser _ => false
  | _ => true

/-- Whether an event is one of the six session-start commands of
`start_jupyter_server_remote`. -/
def Event.isStart : Event → Bool
  | .startCmd _ => true
  | _ => false

/-- Whether an event is the service-status listing command issued by
`check_running_server` (one per probe invocation). -/
def Event.isServerList : Event → Bool
  | .serverList _ => true
  | _ => false

/-- Exceptions raised by jlab_connector.py.  The Python code raises bare
`ValueError` / `RuntimeError` / propagated `subprocess.CalledProcessError`;
constructors are named after the distinct raise sites (the spec names them
PortInUseError, RemotePortInUseError, EnvironmentNotFoundError, ProbeError,
BootstrapError, SessionStartError/TunnelError/ChannelError respectively). -/
inductive Err where
  | portInUse (p : Nat) : Err
  | remotePortInUse (p : Nat) : Err
  | envNotFound (conda_env available : String) : Err
  | probeError : Err
  | bootstrapError : Err
  | calledProcessError : Err
  | unboundLocalError : Err
  deriving Repr, DecidableEq

/-- Per-probe-call oracle: outcomes of the two fallible remote commands the
status probe may run (`jupyter server list` and `conda env list`).
`none` models a non-zero exit (CalledProcessError). -/
structure ProbeEnv where
  serverList : Option String
  envList : Option String

/-- Oracle for one orchestration run: fixed stdout/outcomes of each remote
command, plus the initial remote filesystem fact the bootstrap check mutates
(existence of `~/.bash_conda`).  The status probe is called repeatedly during
polling, so its oracle is indexed by the call number. -/
structure Host where
  bashConda : Bool
  bashrcSed : String
  probeEnv : Nat → ProbeEnv
  tmuxLs : Option String
  remoteLsof : Option String
  localLsof : Option String
  startOk : String → Bool
  forwardOk : Bool

/-! ### Python string primitives -/

/-- Python `str.split("\n")` on the decoded stdout, over the character list:
always returns at least one piece (splitting "" gives [""]). -/
def splitNl : List Char → List (List Char)
  | [] => [[]]
  | c :: rest =>
    match splitNl rest with
    | [] => [[]]
    | l :: ls => if c = '\n' then [] :: l :: ls else (c :: l) :: ls

/-- Python substring test `needle in hay`. -/
def pyIn (needle hay : String) : Bool :=
  decide (needle.toList <:+: hay.toList)

/-- `get_stdout_by_line_from_cmd_results` (jlab_connector.py:88):
`res_cmd.stdout.decode().split("\n")`. -/
def get_stdout_by_line_from_cmd_results (stdout : String) : List String :=
  (splitNl stdout.toList).map (fun l => String.mk l)

/-- `ssh_minus_tt` (jlab_connector.py:36): `f'ssh -tt {target} "{x}"'`. -/
def ssh_minus_tt (x target : String) : String :=
  s!"ssh -tt {target} \"{x}\""

/-! ### Component functions (jlab_connector.py) -/

/-- `check_exists_bash_conda_file` (jlab_connector.py:142): runs
`[ -f .bash_conda ] && echo "File exist" || echo "File does not exist"`
(this compound always exits zero; its stdout is determined by the remote
filesystem fact `fs`) and tests whether a stdout line contains "File exist". -/
def check_exists_bash_conda_file (fs : Bool) : Bool × List Event :=
  let stdout := if fs then "File exist\n" else "File does not exist\n"
  let lines := get_stdout_by_line_from_cmd_results stdout
  (if 0 < (lines.filter (fun i => pyIn "File exist" i)).length then true else false,
   [Event.checkBashConda])

/-- `check_conda_init_in_bashrc` (jlab_connector.py:166): runs
`sed -n "/>>> conda initialize >>>/, /<<< conda initialize <<</p" .bashrc`
(sed -n always exits zero; stdout is the delimited block, empty if absent) and
tests whether the FIRST stdout line contains "conda initialize". -/
def check_conda_init_in_bashrc (h : Host) : Bool × List Event :=
  let lines := get_stdout_by_line_from_cmd_results h.bashrcSed
  (if pyIn "conda initialize" (lines.headD "") then true else false,
   [Event.checkCondaInit])

/-- `create_bash_conda_file` (jlab_connector.py:186): `touch .bash_conda`
(always exits zero); mutates the remote filesystem: the file now exists. -/
def create_bash_conda_file : List Event :=
  [Event.createBashConda]

/-- `copy_conda_initialize_in_bash_conda_file` (jlab_connector.py:200):
`sed -n '...' .bashrc > .bash_conda` (always exits zero). -/
def copy_conda_initialize_in_bash_conda_file : List Event :=
  [Event.copyCondaInit]

/-- `check_running_server` (jlab_connector.py:117): runs
`source .bash_conda; conda activate {env}; jupyter server list`; on success
tests whether a stdout line contains the decimal remote port; on non-zero exit
the CalledProcessError propagates. -/
def check_running_server (pe : ProbeEnv) (conda_env : String) (remote_port : Nat) :
    Except Err Bool × List Event :=
  match pe.serverList with
  | none => (.error .calledProcessError, [Event.serverList conda_env])
  | some out =>
    let lines := get_stdout_by_line_from_cmd_results out
    (.ok (if 0 < (lines.filter (fun i => pyIn (toString remote_port) i)).length
          then true else false),
     [Event.serverList conda_env])

/-- `check_conda_env_exists` (jlab_connector.py:93): runs `conda env list`;
returns (some line contains the env name, `"\n".join(lines)`); on non-zero
exit the CalledProcessError propagates (no try/except). -/
def check_conda_env_exists (pe : ProbeEnv) (conda_env : String) :
    Except Err (Bool × String) × List Event :=
  match pe.envList with
  | none => (.error .calledProcessError, [Event.condaEnvList])
  | some out =>
    let lines := get_stdout_by_line_from_cmd_results out
    (.ok (if 0 < (lines.filter (fun i => pyIn conda_env i)).length then true else false,
          String.intercalate "\n" lines),
     [Event.condaEnvList])

/-- The bootstrap block of `check_if_jp_server_is_running`
(jlab_connector.py:257-265): if `.bash_conda` is absent, either raise
`RuntimeError` (no conda init block in `.bashrc`) or create `.bash_conda` and
copy the block into it.  Returns (outcome, trace, new existence of
`.bash_conda`). -/
def bootstrap_check (h : Host) (fs : Bool) : Except Err Unit × List Event × Bool :=
  let (ex, ev1) := check_exists_bash_conda_file fs
  if !ex then
    let (ini, ev2) := check_conda_init_in_bashrc h
    if !ini then
      (.error .bootstrapError, ev1 ++ ev2, fs)
    else
      (.ok (), ev1 ++ ev2 ++ create_bash_conda_file ++
               copy_conda_initialize_in_bash_conda_file, true)
  else
    (.ok (), ev1, fs)

/-- `check_if_jp_server_is_running` (jlab_connector.py:244): bootstrap block,
then `check_running_server`; if the latter raises CalledProcessError, run
`check_conda_env_exists` and raise `ValueError(env, available)` when the env
is absent, `RuntimeError` otherwise.  `i` indexes this probe invocation in the
oracle; `fs` is the current existence of `.bash_conda`, threaded through. -/
def check_if_jp_server_is_running (h : Host) (i : Nat) (conda_env : String)
    (p_remote : Nat) (fs : Bool) : Except Err Bool × List Event × Bool :=
  match bootstrap_check h fs with
  | (.error e, evs, fs1) => (.error e, evs, fs1)
  | (.ok _, evs, fs1) =>
    match check_running_server (h.probeEnv i) conda_env p_remote with
    | (.ok b, evs2) => (.ok b, evs ++ evs2, fs1)
    | (.error _, evs2) =>
      match check_conda_env_exists (h.probeEnv i) conda_env with
      | (.error e, evs3) => (.error e, evs ++ evs2 ++ evs3, fs1)
      | (.ok (status, available), evs3) =>
        (if status then .error .probeError
         else .error (.envNotFound conda_env available),
         evs ++ evs2 ++ evs3, fs1)

/-- `check_tmux_session_running` (jlab_connector.py:217): runs `tmux ls` inside
`try`; a CalledProcessError is swallowed by `pass`, but then line 226 reads
the unassigned local `res_cmd`, so Python raises UnboundLocalError.  On
success, tests whether a stdout line contains the session name. -/
def check_tmux_session_running (h : Host) (tmux_session_name : String) :
    Except Err Bool × List Event :=
  match h.tmuxLs with
  | none => (.error .unboundLocalError, [Event.tmuxLs])
  | some out =>
    let lines := get_stdout_by_line_from_cmd_results out
    (.ok (if 0 < (lines.filter (fun i => pyIn tmux_session_name i)).length
          then true else false),
     [Event.tmuxLs])

/-- `kill_tmux_session` (jlab_connector.py:232): runs
`tmux kill-session -t {name}`; a CalledProcessError is swallowed and logged,
so the call always returns. -/
def kill_tmux_session (tmux_session_name : String) : List Event :=
  [Event.killSession tmux_session_name]

/-- `check_port_in_use_remote` (jlab_connector.py:280): runs
`lsof -i :{p_remote}` remotely; on success reports in-use when the stdout line
list is non-empty; a CalledProcessError is swallowed, leaving status False. -/
def check_port_in_use_remote (h : Host) (p_remote : Nat) : Bool × List Event :=
  match h.remoteLsof with
  | none => (false, [Event.remoteLsof p_remote])
  | some out =>
    (if 0 < (get_stdout_by_line_from_cmd_results out).length then true else false,
     [Event.remoteLsof p_remote])

/-- `check_port_in_use_local` (jlab_connector.py:301): runs `lsof -i:{p_local}`
on the local machine; same logic as the remote variant. -/
def check_port_in_use_local (h : Host) (p_local : Nat) : Bool × List Event :=
  match h.localLsof with
  | none => (false, [Event.localLsof p_local])
  | some out =>
    (if 0 < (get_stdout_by_line_from_cmd_results out).length then true else false,
     [Event.localLsof p_local])

/-- The six command strings built by `start_jupyter_server_remote`
(jlab_connector.py:70-76), in program order. -/
def start_cmds (target tmux_session_name conda_env : String) (port : Nat) :
    List String :=
  [ssh_minus_tt s!"tmux new-session -d -s {tmux_session_name}" target,
   ssh_minus_tt "tmux send-keys -t 0 C-c" target,
   ssh_minus_tt "tmux rename-window -t 0 Main" target,
   ssh_minus_tt "tmux split-window -t \x27Main\x27 -v" target,
   ssh_minus_tt s!"tmux send-keys -t Main.0 \x27conda activate {conda_env}\x27 Enter" target,
   ssh_minus_tt s!"tmux send-keys -t Main.0 \x27jupyter lab --no-browser --port={port}\x27 Enter" target]

/-- The `for cmd in [...]: run_command(cmd)` loop of
`start_jupyter_server_remote` (jlab_connector.py:78-81): each command in turn,
stopping at (and re-raising) the first CalledProcessError. -/
def runSeq (ok : String → Bool) : List String → Except Err Unit × List Event
  | [] => (.ok (), [])
  | c :: rest =>
    if ok c then
      let (r, evs) := runSeq ok rest
      (r, Event.startCmd c :: evs)
    else
      (.error .calledProcessError, [Event.startCmd c])

/-- `start_jupyter_server_remote` (jlab_connector.py:53): runs the six
commands in order; the first failure aborts the sequence and re-raises. -/
def start_jupyter_server_remote (h : Host) (target tmux_session_name conda_env : String)
    (port : Nat) : Except Err Unit × List Event :=
  runSeq h.startOk (start_cmds target tmux_session_name conda_env port)

/-- The `while True` polling loop of `tunnel_jupyter_ports`
(jlab_connector.py:336-343): starting from status "down", each iteration
sleeps 15 seconds then probes `check_if_jp_server_is_running`; the loop exits
once a probe returns True; an exception from the probe propagates.  `i` is the
oracle index of the next probe call, `fs` the threaded `.bash_conda`
existence, `fuel` a termination bound (the Python loop is unbounded; `none`
means the fuel ran out before the loop exited).  Returns
(outcome, trace, final fs, next probe index). -/
def tunnel_poll (h : Host) (conda_env : String) (p_remote : Nat) :
    Nat → Bool → Nat → Option (Except Err Unit × List Event × Bool × Nat)
  | _, _, 0 => none
  | i, fs, fuel + 1 =>
    match check_if_jp_server_is_running h i conda_env p_remote fs with
    | (.error e, evs, fs1) => some (.error e, Event.sleep 15 :: evs, fs1, i + 1)
    | (.ok true, evs, fs1) => some (.ok (), Event.sleep 15 :: evs, fs1, i + 1)
    | (.ok false, evs, fs1) =>
      (tunnel_poll h conda_env p_remote (i + 1) fs1 fuel).map
        (fun r => (r.1, (Event.sleep 15 :: evs) ++ r.2.1, r.2.2.1, r.2.2.2))

/-- `tunnel_jupyter_ports` (jlab_connector.py:322): poll until the probe
reports the server up, then issue the single forwarding command
`ssh -N -f -L localhost:{p_local}:localhost:{p_remote} {target}`, re-raising
its CalledProcessError on failure. -/
def tunnel_jupyter_ports (h : Host) (target : String) (p_local p_remote : Nat)
    (conda_env : String) (i : Nat) (fs : Bool) (fuel : Nat) :
    Option (Except Err Unit × List Event × Bool) :=
  (tunnel_poll h conda_env p_remote i fs fuel).map
    (fun r =>
      match r.1 with
      | .error e => (.error e, r.2.1, r.2.2.1)
      | .ok _ =>
        (if h.forwardOk then .ok () else .error .calledProcessError,
         r.2.1 ++ [Event.forward p_local p_remote], r.2.2.1))

/-- `jp_start_func` (jlab_connector.py:358): the orchestration.  Local port
guard, status probe (oracle call 0), optional session kill, remote port
guard, session start, tunnel (probing from oracle call 1 on), browser tab. -/
def jp_start_func (h : Host) (target : String) (p_local p_remote : Nat)
    (tmux_session_name conda_env : String) (fuel : Nat) :
    Option (Except Err Unit × List Event) :=
  let (inUse, ev1) := check_port_in_use_local h p_local
  if inUse then
    some (.error (.portInUse p_local), ev1)
  else
    match check_if_jp_server_is_running h 0 conda_env p_remote h.bashConda with
    | (.error e, ev2, _) => some (.error e, ev1 ++ ev2)
    | (.ok true, ev2, fs1) =>
      (tunnel_jupyter_ports h target p_local p_remote conda_env 1 fs1 fuel).map
        (fun r =>
          match r.1 with
          | .error e => (.error e, ev1 ++ ev2 ++ r.2.1)
          | .ok _ => (.ok (), ev1 ++ ev2 ++ r.2.1 ++ [Event.openBrowser p_local]))
    | (.ok false, ev2, fs1) =>
      match check_tmux_session_running h tmux_session_name with
      | (.error e, ev3) => some (.error e, ev1 ++ ev2 ++ ev3)
      | (.ok sessionUp, ev3) =>
        let ev4 := if sessionUp then kill_tmux_session tmux_session_name else []
        let (rUse, ev5) := check_port_in_use_remote h p_remote
        if rUse then
          some (.error (.remotePortInUse p_remote), ev1 ++ ev2 ++ ev3 ++ ev4 ++ ev5)
        else
          match start_jupyter_server_remote h target tmux_session_name conda_env p_remote with
          | (.error e, ev6) => some (.error e, ev1 ++ ev2 ++ ev3 ++ ev4 ++ ev5 ++ ev6)
          | (.ok _, ev6) =>
            (tunnel_jupyter_ports h target p_local p_remote conda_env 1 fs1 fuel).map
              (fun r =>
                match r.1 with
                | .error e => (.error e, ev1 ++ ev2 ++ ev3 ++ ev4 ++ ev5 ++ ev6 ++ r.2.1)
                | .ok _ =>
                  (.ok (), ev1 ++ ev2 ++ ev3 ++ ev4 ++ ev5 ++ ev6 ++ r.2.1 ++
                           [Event.openBrowser p_local]))

/-- The `.bash_conda` existence seen by the j-th probe call of a polling run
that starts probing at oracle index `i0` with filesystem state `fs` (the
probe itself may create the file, so the state is threaded). -/
def fsChain (h : Host) (conda_env : String) (p_remote : Nat) (i0 : Nat) (fs : Bool) :
    Nat → Bool
  | 0 => fs
  | j + 1 =>
    (check_if_jp_server_is_running h (i0 + j) conda_env p_remote
      (fsChain h conda_env p_remote i0 fs j)).2.2

/-- Result of the j-th probe call of such a polling run. -/
def probeRes (h : Host) (conda_env : String) (p_remote : Nat) (i0 : Nat) (fs : Bool)
    (j : Nat) : Except Err Bool :=
  (check_if_jp_server_is_running h (i0 + j) conda_env p_remote
    (fsChain h conda_env p_remote i0 fs j)).1

/-- Trace of the j-th probe call of such a polling run. -/
def probeTrace (h : Host) (conda_env : String) (p_remote : Nat) (i0 : Nat) (fs : Bool)
    (j : Nat) : List Event :=
  (check_if_jp_server_is_running h (i0 + j) conda_env p_remote
    (fsChain h conda_env p_remote i0 fs j)).2.1

/-! ### Concrete hosts, used to evaluate the theorems on closed inputs -/

/-- A healthy host: `.bash_conda` exists, the server listing succeeds and shows
port 8888, every session-start command succeeds, the forward succeeds. -/
def hostBase : Host where
  bashConda := true
  bashrcSed := ">>> conda initialize >>>\nstuff\n<<< conda initialize <<<\n"
  probeEnv := fun _ =>
    { serverList := some "http://localhost:8888/lab :: /home/u\n", envList := some "py39\n" }
  tmuxLs := some ""
  remoteLsof := none
  localLsof := none
  startOk := fun _ => true
  forwardOk := true

/-- Like `hostBase` but `tmux ls` exits non-zero (e.g. no tmux server). -/
def hostTmuxFail : Host :=
  { hostBase with tmuxLs := none }

/-- Like `hostBase` but the local `lsof` succeeds with empty output. -/
def hostLocalBusy : Host :=
  { hostBase with localLsof := some "" }

/-- Service down (listing shows no port), session "jp" present in `tmux ls`,
remote `lsof` succeeds (port occupied). -/
def hostDownBusyRemote : Host :=
  { hostBase with
      probeEnv := fun _ => { serverList := some "", envList := some "py39\n" },
      tmuxLs := some "jp: 1 windows\n",
      remoteLsof := some "python 4242\n" }

/-- Service down, stale session "jp" present, remote port free, start and
forward succeed, server up from the second probe on. -/
def hostDownStale : Host :=
  { hostBase with
      probeEnv := fun i =>
        { serverList := some (if i = 0 then "" else "http://localhost:8888/lab\n"),
          envList := some "py39\n" },
      tmuxLs := some "jp: 1 windows\n" }

/-- `.bash_conda` absent and no conda-initialize block in `.bashrc`. -/
def hostNoInit : Host :=
  { hostBase with bashConda := false, bashrcSed := "" }

/-- `.bash_conda` absent but `.bashrc` carries the delimited block. -/
def hostInitInBashrc : Host :=
  { hostBase with bashConda := false }

/-- The status listing command fails; `conda env list` succeeds but the
requested environment is not among the lines. -/
def hostEnvMissing : Host :=
  { hostBase with
      probeEnv := fun _ => { serverList := none, envList := some "base\nother\n" } }

/-- The status listing command fails although the environment exists. -/
def hostProbeFault : Host :=
  { hostBase with
      probeEnv := fun _ => { serverList := none, envList := some "base\npy39\n" } }

/-! ### Helper lemmas -/

theorem splitNl_ne_nil : ∀ l : List Char, splitNl l ≠ []
  | [] => by simp [splitNl]
  | c :: rest => by
    unfold splitNl
    cases hr : splitNl rest with
    | nil => simp
    | cons a as =>
      by_cases hc : c = '\n' <;> simp [hc]

theorem get_stdout_length_pos (s : String) :
    0 < (get_stdout_by_line_from_cmd_results s).length := by
  unfold get_stdout_by_line_from_cmd_results
  rw [List.length_map]
  exact List.length_pos.mpr (splitNl_ne_nil _)

theorem check_exists_eval (fs : Bool) :
    check_exists_bash_conda_file fs = (fs, [Event.checkBashConda]) := by
  cases fs <;> decide

theorem bootstrap_check_true (h : Host) :
    bootstrap_check h true = (.ok (), [Event.checkBashConda], true) := by
  simp [bootstrap_check, check_exists_eval]

theorem bootstrap_check_false (h : Host) :
    bootstrap_check h false =
      if (check_conda_init_in_bashrc h).1 then
        (.ok (), [Event.checkBashConda, Event.checkCondaInit, Event.createBashConda,
                  Event.copyCondaInit], true)
      else
        (.error .bootstrapError, [Event.checkBashConda, Event.checkCondaInit], false) := by
  by_cases hini : (check_conda_init_in_bashrc h).1 <;>
    simp [bootstrap_check, check_exists_eval, check_conda_init_in_bashrc,
          create_bash_conda_file, copy_conda_initialize_in_bash_conda_file] at hini ⊢ <;>
    simp [hini]

theorem bootstrap_fs_of_ok (h : Host) (fs : Bool)
    (hok : (bootstrap_check h fs).1 = .ok ()) : (bootstrap_check h fs).2.2 = true := by
  cases fs
  · rw [bootstrap_check_false] at hok ⊢
    by_cases hini : (check_conda_init_in_bashrc h).1 <;> simp [hini] at hok ⊢
  · rw [bootstrap_check_true]

theorem bootstrap_no_start (h : Host) (fs : Bool) :
    ∀ e ∈ (bootstrap_check h fs).2.1, e.isStart = false := by
  cases fs
  · rw [bootstrap_check_false]
    by_cases hini : (check_conda_init_in_bashrc h).1 <;> simp [hini] <;> decide
  · rw [bootstrap_check_true]
    decide

theorem check_local_some (h : Host) (p : Nat) (out : String)
    (hs : h.localLsof = some out) :
    check_port_in_use_local h p = (true, [Event.localLsof p]) := by
  simp [check_port_in_use_local, hs, get_stdout_length_pos]

theorem check_local_none (h : Host) (p : Nat) (hs : h.localLsof = none) :
    check_port_in_use_local h p = (false, [Event.localLsof p]) := by
  simp [check_port_in_use_local, hs]

theorem check_remote_some (h : Host) (p : Nat) (out : String)
    (hs : h.remoteLsof = some out) :
    check_port_in_use_remote h p = (true, [Event.remoteLsof p]) := by
  simp [check_port_in_use_remote, hs, get_stdout_length_pos]

theorem probe_no_start (h : Host) (i : Nat) (conda_env : String) (p_remote : Nat)
    (fs : Bool) :
    ∀ e ∈ (check_if_jp_server_is_running h i conda_env p_remote fs).2.1,
      e.isStart = false := by
  unfold check_if_jp_server_is_running
  rcases hb : bootstrap_check h fs with ⟨r, evs, fs1⟩
  have hevs : ∀ e ∈ evs, e.isStart = false := by
    have := bootstrap_no_start h fs
    rw [hb] at this
    exact this
  cases r with
  | error e => simpa using hevs
  | ok u =>
    rcases hrs : check_running_server (h.probeEnv i) conda_env p_remote with ⟨rs, evs2⟩
    have hevs2 : evs2 = [Event.serverList conda_env] := by
      unfold check_running_server at hrs
      cases hsl : (h.probeEnv i).serverList <;> rw [hsl] at hrs <;>
        simp at hrs <;> exact hrs.2.symm
    cases rs with
    | ok b =>
      subst hevs2
      intro e he
      simp at he
      rcases he with he | he
      · exact hevs e he
      · simp [he, Event.isStart]
    | error e2 =>
      rcases hce : check_conda_env_exists (h.probeEnv i) conda_env with ⟨rc, evs3⟩
      have hevs3 : evs3 = [Event.condaEnvList] := by
        unfold check_conda_env_exists at hce
        cases hel : (h.probeEnv i).envList <;> rw [hel] at hce <;>
          simp at hce <;> exact hce.2.symm
      subst hevs2 hevs3
      cases rc with
      | error e3 =>
        intro e he
        simp at he
        rcases he with he | he | he
        · exact hevs e he
        · simp [he, Event.isStart]
        · simp [he, Event.isStart]
      | ok sa =>
        intro e he
        simp at he
        rcases he with he | he | he
        · exact hevs e he
        · simp [he, Event.isStart]
        · simp [he, Event.isStart]

theorem check_tmux_some (h : Host) (name out : String) (hs : h.tmuxLs = some out) :
    check_tmux_session_running h name =
      (.ok (if 0 < ((get_stdout_by_line_from_cmd_results out).filter
              (fun i => pyIn name i)).length then true else false),
       [Event.tmuxLs]) := by
  simp [check_tmux_session_running, hs]

theorem check_tmux_trace (h : Host) (name : String) :
    (check_tmux_session_running h name).2 = [Event.tmuxLs] := by
  unfold check_tmux_session_running
  cases h.tmuxLs <;> rfl

theorem check_remote_trace (h : Host) (p : Nat) :
    (check_port_in_use_remote h p).2 = [Event.remoteLsof p] := by
  unfold check_port_in_use_remote
  cases h.remoteLsof <;> rfl

theorem runSeq_all_ok (ok : String → Bool) :
    ∀ l : List String, (∀ c ∈ l, ok c = true) →
      runSeq ok l = (.ok (), l.map Event.startCmd)
  | [], _ => rfl
  | c :: rest, hall => by
    have hc : ok c = true := hall c (by simp)
    have ih := runSeq_all_ok ok rest (fun x hx => hall x (by simp [hx]))
    simp [runSeq, hc, ih]

theorem runSeq_first_fail (ok : String → Bool) :
    ∀ (l1 : List String) (c : String) (l2 : List String),
      (∀ x ∈ l1, ok x = true) → ok c = false →
      runSeq ok (l1 ++ c :: l2) =
        (.error .calledProcessError, (l1 ++ [c]).map Event.startCmd)
  | [], c, l2, _, hc => by simp [runSeq, hc]
  | x :: l1, c, l2, hall, hc => by
    have hx : ok x = true := hall x (by simp)
    have ih := runSeq_first_fail ok l1 c l2 (fun y hy => hall y (by simp [hy])) hc
    simp [runSeq, hx, ih]

theorem check_running_trace (pe : ProbeEnv) (conda_env : String) (p_remote : Nat) :
    (check_running_server pe conda_env p_remote).2 = [Event.serverList conda_env] := by
  unfold check_running_server
  cases pe.serverList <;> rfl

theorem check_fs_true (h : Host) (i : Nat) (conda_env : String) (p_remote : Nat) :
    (check_if_jp_server_is_running h i conda_env p_remote true).2.2 = true := by
  unfold check_if_jp_server_is_running
  rw [bootstrap_check_true]
  cases hsl : (h.probeEnv i).serverList with
  | some out => simp [check_running_server, hsl]
  | none =>
    cases hel : (h.probeEnv i).envList with
    | some out2 => simp [check_running_server, check_conda_env_exists, hsl, hel]
    | none => simp [check_running_server, check_conda_env_exists, hsl, hel]

theorem fsChain_true (h : Host) (conda_env : String) (p_remote : Nat) (i0 : Nat) :
    ∀ j, fsChain h conda_env p_remote i0 true j = true
  | 0 => rfl
  | j + 1 => by
    rw [fsChain, fsChain_true h conda_env p_remote i0 j, check_fs_true]

theorem fsChain_shift (h : Host) (conda_env : String) (p_remote : Nat) (i0 : Nat)
    (fs : Bool) :
    ∀ j, fsChain h conda_env p_remote (i0 + 1)
        ((check_if_jp_server_is_running h i0 conda_env p_remote fs).2.2) j =
      fsChain h conda_env p_remote i0 fs (j + 1)
  | 0 => by
    simp [fsChain]
  | j + 1 => by
    rw [fsChain, fsChain, fsChain_shift h conda_env p_remote i0 fs j]
    have hidx : i0 + 1 + j = i0 + (j + 1) := by omega
    rw [hidx]

theorem probeRes_shift (h : Host) (conda_env : String) (p_remote : Nat) (i0 : Nat)
    (fs : Bool) (j : Nat) :
    probeRes h conda_env p_remote (i0 + 1)
        ((check_if_jp_server_is_running h i0 conda_env p_remote fs).2.2) j =
      probeRes h conda_env p_remote i0 fs (j + 1) := by
  rw [probeRes, probeRes, fsChain_shift]
  have hidx : i0 + 1 + j = i0 + (j + 1) := by omega
  rw [hidx]

theorem probeTrace_shift (h : Host) (conda_env : String) (p_remote : Nat) (i0 : Nat)
    (fs : Bool) (j : Nat) :
    probeTrace h conda_env p_remote (i0 + 1)
        ((check_if_jp_server_is_running h i0 conda_env p_remote fs).2.2) j =
      probeTrace h conda_env p_remote i0 fs (j + 1) := by
  rw [probeTrace, probeTrace, fsChain_shift]
  have hidx : i0 + 1 + j = i0 + (j + 1) := by omega
  rw [hidx]

theorem tunnel_poll_up (h : Host) (conda_env : String) (p_remote : Nat) (i : Nat)
    (fs : Bool) (fuel : Nat)
    (hup : (check_if_jp_server_is_running h i conda_env p_remote fs).1 = .ok true) :
    tunnel_poll h conda_env p_remote i fs (fuel + 1) =
      some (.ok (),
        Event.sleep 15 :: (check_if_jp_server_is_running h i conda_env p_remote fs).2.1,
        (check_if_jp_server_is_running h i conda_env p_remote fs).2.2, i + 1) := by
  rcases hc : check_if_jp_server_is_running h i conda_env p_remote fs with ⟨rc, evs, fs1⟩
  rw [hc] at hup
  simp only at hup
  subst hup
  simp [tunnel_poll, hc]

theorem tunnel_poll_down (h : Host) (conda_env : String) (p_remote : Nat) (i : Nat)
    (fs : Bool) (fuel : Nat)
    (hdn : (check_if_jp_server_is_running h i conda_env p_remote fs).1 = .ok false) :
    tunnel_poll h conda_env p_remote i fs (fuel + 1) =
      (tunnel_poll h conda_env p_remote (i + 1)
          ((check_if_jp_server_is_running h i conda_env p_remote fs).2.2) fuel).map
        (fun r =>
          (r.1,
           (Event.sleep 15 ::
              (check_if_jp_server_is_running h i conda_env p_remote fs).2.1) ++ r.2.1,
           r.2.2.1, r.2.2.2)) := by
  rcases hc : check_if_jp_server_is_running h i conda_env p_remote fs with ⟨rc, evs, fs1⟩
  rw [hc] at hdn
  simp only at hdn
  subst hdn
  simp [tunnel_poll, hc]

theorem tunnel_poll_exact (h : Host) (conda_env : String) (p_remote : Nat) :
    ∀ (K i0 : Nat) (fs : Bool) (m : Nat),
      (∀ j, j < K → probeRes h conda_env p_remote i0 fs j = .ok false) →
      probeRes h conda_env p_remote i0 fs K = .ok true →
      tunnel_poll h conda_env p_remote i0 fs (K + 1 + m) =
        some (.ok (),
          (List.range (K + 1)).flatMap
            (fun j => Event.sleep 15 :: probeTrace h conda_env p_remote i0 fs j),
          fsChain h conda_env p_remote i0 fs (K + 1), i0 + (K + 1))
  | 0, i0, fs, m, _, hup => by
    have h0 : (check_if_jp_server_is_running h i0 conda_env p_remote fs).1 = .ok true := by
      have h1 := hup
      rw [probeRes] at h1
      simpa [fsChain] using h1
    have heq : 0 + 1 + m = m + 1 := by omega
    rw [heq, tunnel_poll_up h conda_env p_remote i0 fs m h0]
    have hr1 : List.range 1 = [0] := rfl
    rw [hr1]
    simp [probeTrace, fsChain]
  | K + 1, i0, fs, m, hdown, hup => by
    have h0 : (check_if_jp_server_is_running h i0 conda_env p_remote fs).1 = .ok false := by
      have h1 := hdown 0 (by omega)
      rw [probeRes] at h1
      simpa [fsChain] using h1
    have heq : K + 1 + 1 + m = K + 1 + m + 1 := by omega
    rw [heq, tunnel_poll_down h conda_env p_remote i0 fs (K + 1 + m) h0]
    have ih := tunnel_poll_exact h conda_env p_remote K (i0 + 1)
      ((check_if_jp_server_is_running h i0 conda_env p_remote fs).2.2) m
      (fun j hj => by
        rw [probeRes_shift]
        exact hdown (j + 1) (by omega))
      (by
        rw [probeRes_shift]
        exact hup)
    rw [ih]
    simp only [Option.map_some']
    refine congrArg some ?_
    refine congrArg (Prod.mk _) ?_
    refine Prod.ext ?_ (Prod.ext ?_ ?_)
    · show (Event.sleep 15 ::
          (check_if_jp_server_is_running h i0 conda_env p_remote fs).2.1) ++
          (List.range (K + 1)).flatMap
            (fun j => Event.sleep 15 :: probeTrace h conda_env p_remote (i0 + 1)
              ((check_if_jp_server_is_running h i0 conda_env p_remote fs).2.2) j) =
        (List.range (K + 1 + 1)).flatMap
          (fun j => Event.sleep 15 :: probeTrace h conda_env p_remote i0 fs j)
      simp only [probeTrace_shift]
      conv_rhs => rw [List.range_succ_eq_map]
      simp only [List.flatMap_cons, List.flatMap_map, Nat.succ_eq_add_one]
      have hhead : Event.sleep 15 ::
            (check_if_jp_server_is_running h i0 conda_env p_remote fs).2.1 =
          Event.sleep 15 :: probeTrace h conda_env p_remote i0 fs 0 := by
        simp [probeTrace, fsChain]
      rw [hhead]
    · show fsChain h conda_env p_remote (i0 + 1)
          ((check_if_jp_server_is_running h i0 conda_env p_remote fs).2.2) (K + 1) =
        fsChain h conda_env p_remote i0 fs (K + 1 + 1)
      rw [fsChain_shift]
    · show i0 + 1 + (K + 1) = i0 + (K + 1 + 1)
      omega

theorem probe_ok_trace_shape (h : Host) (i : Nat) (conda_env : String) (p_remote : Nat)
    (fs : Bool) (b : Bool)
    (hok : (check_if_jp_server_is_running h i conda_env p_remote fs).1 = .ok b) :
    (check_if_jp_server_is_running h i conda_env p_remote fs).2.1 =
      (bootstrap_check h fs).2.1 ++ [Event.serverList conda_env] := by
  rcases hb : bootstrap_check h fs with ⟨rb, evs, fs1⟩
  rcases hrs : check_running_server (h.probeEnv i) conda_env p_remote with ⟨rs, evs2⟩
  have hevs2 : evs2 = [Event.serverList conda_env] := by
    have h2 := check_running_trace (h.probeEnv i) conda_env p_remote
    rw [hrs] at h2
    exact h2
  subst hevs2
  cases rb with
  | error e =>
    simp [check_if_jp_server_is_running, hb] at hok
  | ok u =>
    cases rs with
    | ok b2 =>
      simp [check_if_jp_server_is_running, hb, hrs]
    | error e2 =>
      rcases hce : check_conda_env_exists (h.probeEnv i) conda_env with ⟨rc, evs3⟩
      cases rc with
      | error e3 =>
        simp [check_if_jp_server_is_running, hb, hrs, hce] at hok
      | ok sa =>
        obtain ⟨status, available⟩ := sa
        simp [check_if_jp_server_is_running, hb, hrs, hce] at hok
        split at hok <;> simp at hok

theorem bootstrap_trace_cases (h : Host) (fs : Bool) :
    (bootstrap_check h fs).2.1 = [Event.checkBashConda]
    ∨ (bootstrap_check h fs).2.1 =
        [Event.checkBashConda, Event.checkCondaInit, Event.createBashConda,
         Event.copyCondaInit]
    ∨ (bootstrap_check h fs).2.1 = [Event.checkBashConda, Event.checkCondaInit] := by
  cases fs
  · rw [bootstrap_check_false]
    by_cases hini : (check_conda_init_in_bashrc h).1 <;> simp [hini]
  · rw [bootstrap_check_true]
    simp

theorem probe_ok_counts (h : Host) (i : Nat) (conda_env : String)
    (p_remote pl pr : Nat) (fs : Bool) (b : Bool)
    (hok : (check_if_jp_server_is_running h i conda_env p_remote fs).1 = .ok b) :
    ((check_if_jp_server_is_running h i conda_env p_remote fs).2.1.countP
        Event.isServerList = 1)
    ∧ ((check_if_jp_server_is_running h i conda_env p_remote fs).2.1.countP
        (fun e => e == Event.forward pl pr) = 0)
    ∧ ((check_if_jp_server_is_running h i conda_env p_remote fs).2.1.countP
        (fun e => e == Event.sleep 15) = 0) := by
  rw [probe_ok_trace_shape h i conda_env p_remote fs b hok]
  rcases bootstrap_trace_cases h fs with hb | hb | hb <;> rw [hb] <;>
    simp [List.countP_append, List.countP_cons, Event.isServerList]

theorem bind_const_count {β : Type} (f : Nat → List β) (p : β → Bool) (c : Nat) :
    ∀ n : Nat, (∀ j, j < n → (f j).countP p = c) →
      ((List.range n).flatMap f).countP p = n * c
  | 0, _ => by simp
  | n + 1, hc => by
    rw [List.range_succ, List.flatMap_append, List.countP_append,
        bind_const_count f p c n (fun j hj => hc j (by omega))]
    have hn := hc n (by omega)
    simp [hn]
    ring

/-! ### Claims -/

/-- Claim C1 (code bug): the claim says `check_tmux_session_running` returns
false on channel failure and never raises; in the code the swallowed
CalledProcessError leaves `res_cmd` unbound, so line 226 raises
UnboundLocalError whenever `tmux ls` exits non-zero. -/
theorem check_tmux_session_running_failure_raises (h : Host) (tmux_session_name : String)
    (hfail : h.tmuxLs = none) :
    (check_tmux_session_running h tmux_session_name).1 = .error .unboundLocalError := by
  simp [check_tmux_session_running, hfail]

/-- Claim C1, witness: on a host where `tmux ls` fails, the check raises. -/
theorem check_tmux_session_running_failure_raises_w :
    (check_tmux_session_running hostTmuxFail "jp").1 = .error .unboundLocalError :=
  check_tmux_session_running_failure_raises hostTmuxFail "jp" rfl

/-- Claim C10: whenever the occupancy query itself succeeds (any stdout,
including empty), both the local and the remote port check report the port in
use; a port is reported free only when the query fails. -/
theorem port_checks_success_means_in_use (h : Host) (p_local p_remote : Nat) :
    (∀ out, h.localLsof = some out → (check_port_in_use_local h p_local).1 = true)
    ∧ (∀ out, h.remoteLsof = some out → (check_port_in_use_remote h p_remote).1 = true)
    ∧ (h.localLsof = none → (check_port_in_use_local h p_local).1 = false)
    ∧ (h.remoteLsof = none → (check_port_in_use_remote h p_remote).1 = false) := by
  refine ⟨?_, ?_, ?_, ?_⟩
  · intro out hs
    rw [check_local_some h p_local out hs]
  · intro out hs
    rw [check_remote_some h p_remote out hs]
  · intro hs
    simp [check_port_in_use_local, hs]
  · intro hs
    simp [check_port_in_use_remote, hs]

/-- Claim C10, witness: a successful local query with empty stdout reports the
port in use, and a failing remote query reports it free. -/
theorem port_checks_success_means_in_use_w :
    (check_port_in_use_local hostLocalBusy 8000).1 = true
    ∧ (check_port_in_use_remote hostBase 8888).1 = false :=
  ⟨(port_checks_success_means_in_use hostLocalBusy 8000 8888).1 "" rfl,
   (port_checks_success_means_in_use hostBase 8000 8888).2.2.2 rfl⟩

/-- Claim C6: the bootstrap block raises (RuntimeError, spec: BootstrapError)
iff `.bash_conda` is absent and the `.bashrc` scan finds no conda-initialize
block; in that case no file-creation or copy command is issued; in every other
case it completes without raising. -/
theorem bootstrap_error_iff (h : Host) (fs : Bool) :
    ((bootstrap_check h fs).1 = .error .bootstrapError ↔
      fs = false ∧ (check_conda_init_in_bashrc h).1 = false)
    ∧ ((bootstrap_check h fs).1 = .error .bootstrapError →
        Event.createBashConda ∉ (bootstrap_check h fs).2.1
        ∧ Event.copyCondaInit ∉ (bootstrap_check h fs).2.1)
    ∧ ((bootstrap_check h fs).1 ≠ .error .bootstrapError →
        (bootstrap_check h fs).1 = .ok ()) := by
  cases fs
  · rw [bootstrap_check_false]
    by_cases hini : (check_conda_init_in_bashrc h).1 <;> simp [hini] <;> decide
  · rw [bootstrap_check_true]
    simp

/-- Claim C6, witness: on a host with no `.bash_conda` and no initialize block
the bootstrap block raises. -/
theorem bootstrap_error_iff_w :
    (bootstrap_check hostNoInit false).1 = .error .bootstrapError :=
  (bootstrap_error_iff hostNoInit false).1.mpr ⟨rfl, by decide⟩

/-- Claim C7: when `.bash_conda` already exists the bootstrap block only
issues the existence check (no creation, no copy); and after any successful
bootstrap run, a second run on the resulting remote state issues only the
existence check. -/
theorem bootstrap_idempotent (h : Host) :
    ((bootstrap_check h true).2.1 = [Event.checkBashConda]
     ∧ Event.createBashConda ∉ (bootstrap_check h true).2.1
     ∧ Event.copyCondaInit ∉ (bootstrap_check h true).2.1)
    ∧ ∀ fs, (bootstrap_check h fs).1 = .ok () →
        (bootstrap_check h (bootstrap_check h fs).2.2).2.1 = [Event.checkBashConda] := by
  constructor
  · rw [bootstrap_check_true]
    exact ⟨rfl, by decide, by decide⟩
  · intro fs hok
    rw [bootstrap_fs_of_ok h fs hok, bootstrap_check_true]

/-- Claim C7, witness: after a bootstrap run that created `.bash_conda` from
`.bashrc`, the second run is a no-op. -/
theorem bootstrap_idempotent_w :
    (bootstrap_check hostInitInBashrc (bootstrap_check hostInitInBashrc false).2.2).2.1 =
      [Event.checkBashConda] :=
  (bootstrap_idempotent hostInitInBashrc).2 false rfl

/-- Claim C9: `start_jupyter_server_remote` runs exactly the six listed remote
commands in this fixed order (create detached session, send Ctrl-C, rename the
window, split it, activate the conda env, launch jupyter lab with no browser
at the port), and the first failing command aborts the sequence — the trace
holds the successful prefix plus the failing command, nothing after it — and
re-raises the CalledProcessError (spec: SessionStartError). -/
theorem start_service_six_commands (h : Host)
    (target tmux_session_name conda_env : String) (port : Nat) :
    (start_cmds target tmux_session_name conda_env port =
      [ssh_minus_tt s!"tmux new-session -d -s {tmux_session_name}" target,
       ssh_minus_tt "tmux send-keys -t 0 C-c" target,
       ssh_minus_tt "tmux rename-window -t 0 Main" target,
       ssh_minus_tt "tmux split-window -t \x27Main\x27 -v" target,
       ssh_minus_tt s!"tmux send-keys -t Main.0 \x27conda activate {conda_env}\x27 Enter" target,
       ssh_minus_tt s!"tmux send-keys -t Main.0 \x27jupyter lab --no-browser --port={port}\x27 Enter" target])
    ∧ ((∀ c ∈ start_cmds target tmux_session_name conda_env port, h.startOk c = true) →
        start_jupyter_server_remote h target tmux_session_name conda_env port =
          (.ok (), (start_cmds target tmux_session_name conda_env port).map Event.startCmd))
    ∧ (∀ l1 c l2, start_cmds target tmux_session_name conda_env port = l1 ++ c :: l2 →
        (∀ x ∈ l1, h.startOk x = true) → h.startOk c = false →
        start_jupyter_server_remote h target tmux_session_name conda_env port =
          (.error .calledProcessError, (l1 ++ [c]).map Event.startCmd)) := by
  refine ⟨rfl, ?_, ?_⟩
  · intro hall
    exact runSeq_all_ok h.startOk _ hall
  · intro l1 c l2 heq h1 hc
    rw [start_jupyter_server_remote, heq]
    exact runSeq_first_fail h.startOk l1 c l2 h1 hc

/-- Claim C9, witness: on a host where every command succeeds, the run emits
the six commands in order and returns without raising. -/
theorem start_service_six_commands_w :
    start_jupyter_server_remote hostBase "host1" "jp" "py39" 8888 =
      (.ok (), (start_cmds "host1" "jp" "py39" 8888).map Event.startCmd) :=
  (start_service_six_commands hostBase "host1" "jp" "py39" 8888).2.1 (fun _ _ => rfl)

/-- Claim C3: when the local port is reported occupied, `jp_start_func` raises
ValueError (spec: PortInUseError) at once; the only event is the local `lsof`
query — no remote command and in particular no session-start command. -/
theorem local_port_guard_fails_fast (h : Host) (target : String)
    (p_local p_remote : Nat) (tmux_session_name conda_env : String) (fuel : Nat)
    (out : String) (hocc : h.localLsof = some out) :
    jp_start_func h target p_local p_remote tmux_session_name conda_env fuel =
      some (.error (.portInUse p_local), [Event.localLsof p_local])
    ∧ ∀ e ∈ [Event.localLsof p_local], e.isRemote = false ∧ e.isStart = false := by
  constructor
  · simp [jp_start_func, check_local_some h p_local out hocc]
  · intro e he
    simp at he
    subst he
    exact ⟨rfl, rfl⟩

/-- Claim C3, witness: with the local port occupied the orchestration fails
immediately with only the local query in the trace. -/
theorem local_port_guard_fails_fast_w :
    jp_start_func hostLocalBusy "host1" 8000 8888 "jp" "py39" 5 =
      some (.error (.portInUse 8000), [Event.localLsof 8000]) :=
  (local_port_guard_fails_fast hostLocalBusy "host1" 8000 8888 "jp" "py39" 5 "" rfl).1

/-- Claim C8: if the status listing command fails, the probe runs
`conda env list` and raises ValueError carrying the requested name and the
joined list of available environments (spec: EnvironmentNotFoundError) when no
line mentions the environment, and RuntimeError (spec: ProbeError) otherwise;
it never returns a boolean in that case.  The hypothesis `henvs` says the
environment-listing query itself succeeds (otherwise its CalledProcessError
propagates); `hboot` says the bootstrap block before the query did not raise. -/
theorem probe_failure_env_diagnosis (h : Host) (i : Nat) (conda_env : String)
    (p_remote : Nat) (fs : Bool) (envsOut : String)
    (hboot : (bootstrap_check h fs).1 = .ok ())
    (hfail : (h.probeEnv i).serverList = none)
    (henvs : (h.probeEnv i).envList = some envsOut) :
    (((get_stdout_by_line_from_cmd_results envsOut).filter
        (fun l => pyIn conda_env l)).length = 0 →
      (check_if_jp_server_is_running h i conda_env p_remote fs).1 =
        .error (.envNotFound conda_env
          (String.intercalate "\n" (get_stdout_by_line_from_cmd_results envsOut))))
    ∧ (0 < ((get_stdout_by_line_from_cmd_results envsOut).filter
        (fun l => pyIn conda_env l)).length →
      (check_if_jp_server_is_running h i conda_env p_remote fs).1 = .error .probeError)
    ∧ ∀ b, (check_if_jp_server_is_running h i conda_env p_remote fs).1 ≠ .ok b := by
  rcases hb : bootstrap_check h fs with ⟨rb, evs, fs1⟩
  rw [hb] at hboot
  simp only at hboot
  subst hboot
  by_cases hl : 0 < ((get_stdout_by_line_from_cmd_results envsOut).filter
      (fun l => pyIn conda_env l)).length
  · refine ⟨fun h0 => absurd h0 (by omega), fun _ => ?_, fun b => ?_⟩ <;>
      simp [check_if_jp_server_is_running, hb, check_running_server, hfail,
            check_conda_env_exists, henvs, hl]
  · refine ⟨fun _ => ?_, fun h0 => absurd h0 hl, fun b => ?_⟩ <;>
      simp [check_if_jp_server_is_running, hb, check_running_server, hfail,
            check_conda_env_exists, henvs, hl]

/-- Claim C8, witness: on a host where the listing fails and "py39" is not
among the environments, the probe raises the env-not-found error. -/
theorem probe_failure_env_diagnosis_w :
    (check_if_jp_server_is_running hostEnvMissing 0 "py39" 8888 true).1 =
      .error (.envNotFound "py39"
        (String.intercalate "\n" (get_stdout_by_line_from_cmd_results "base\nother\n"))) :=
  (probe_failure_env_diagnosis hostEnvMissing 0 "py39" 8888 true "base\nother\n"
    rfl rfl rfl).1 (by decide)

/-- Claim C4: when the service probe reports the service down and the remote
port query reports the port occupied, `jp_start_func` raises ValueError
(spec: RemotePortInUseError) and its trace holds no session-start command.
`htmux` says the `tmux ls` query succeeded (on its failure the code instead
dies with UnboundLocalError before reaching the remote port check). -/
theorem remote_port_collision_precedence (h : Host) (target : String)
    (p_local p_remote : Nat) (tmux_session_name conda_env : String) (fuel : Nat)
    (outT outR : String)
    (hfree : h.localLsof = none)
    (hdown : (check_if_jp_server_is_running h 0 conda_env p_remote h.bashConda).1 = .ok false)
    (htmux : h.tmuxLs = some outT)
    (hocc : h.remoteLsof = some outR) :
    ∃ tr, jp_start_func h target p_local p_remote tmux_session_name conda_env fuel =
        some (.error (.remotePortInUse p_remote), tr)
      ∧ ∀ e ∈ tr, e.isStart = false := by
  rcases hp : check_if_jp_server_is_running h 0 conda_env p_remote h.bashConda
    with ⟨r2, ev2, fs1⟩
  rw [hp] at hdown
  simp only at hdown
  subst hdown
  have hev2 : ∀ e ∈ ev2, e.isStart = false := by
    have hns := probe_no_start h 0 conda_env p_remote h.bashConda
    rw [hp] at hns
    exact hns
  by_cases hsb : 0 < ((get_stdout_by_line_from_cmd_results outT).filter
      (fun i => pyIn tmux_session_name i)).length
  · have hjp : jp_start_func h target p_local p_remote tmux_session_name conda_env fuel =
        some (.error (.remotePortInUse p_remote),
          [Event.localLsof p_local] ++ ev2 ++ [Event.tmuxLs] ++
            [Event.killSession tmux_session_name] ++ [Event.remoteLsof p_remote]) := by
      simp [jp_start_func, check_local_none h p_local hfree, hp,
            check_tmux_some h tmux_session_name outT htmux, hsb,
            kill_tmux_session, check_remote_some h p_remote outR hocc]
    refine ⟨_, hjp, ?_⟩
    intro e he
    simp at he
    rcases he with he | he | he | he | he
    · simp [he, Event.isStart]
    · exact hev2 e he
    · simp [he, Event.isStart]
    · simp [he, Event.isStart]
    · simp [he, Event.isStart]
  · have hjp : jp_start_func h target p_local p_remote tmux_session_name conda_env fuel =
        some (.error (.remotePortInUse p_remote),
          [Event.localLsof p_local] ++ ev2 ++ [Event.tmuxLs] ++
            [Event.remoteLsof p_remote]) := by
      simp [jp_start_func, check_local_none h p_local hfree, hp,
            check_tmux_some h tmux_session_name outT htmux, hsb,
            kill_tmux_session, check_remote_some h p_remote outR hocc]
    refine ⟨_, hjp, ?_⟩
    intro e he
    simp at he
    rcases he with he | he | he | he
    · simp [he, Event.isStart]
    · exact hev2 e he
    · simp [he, Event.isStart]
    · simp [he, Event.isStart]

/-- Claim C4, witness: service down, session listed, remote lsof succeeds —
the run fails with the remote-port error and starts nothing. -/
theorem remote_port_collision_precedence_w :
    ∃ tr, jp_start_func hostDownBusyRemote "host1" 8000 8888 "jp" "py39" 5 =
        some (.error (.remotePortInUse 8888), tr)
      ∧ ∀ e ∈ tr, e.isStart = false :=
  remote_port_collision_precedence hostDownBusyRemote "host1" 8000 8888 "jp" "py39" 5
    "jp: 1 windows\n" "python 4242\n" rfl rfl rfl rfl

/-- Claim C5: in every terminating orchestration run where the service probe
reports the service down and the session check reports a session with the
target name, the trace contains the kill-session command, and no session-start
command is issued before it. -/
theorem kill_before_start (h : Host) (target : String) (p_local p_remote : Nat)
    (tmux_session_name conda_env : String) (fuel : Nat)
    (r : Except Err Unit × List Event)
    (hfree : h.localLsof = none)
    (hdown : (check_if_jp_server_is_running h 0 conda_env p_remote h.bashConda).1 = .ok false)
    (hsess : (check_tmux_session_running h tmux_session_name).1 = .ok true)
    (hr : jp_start_func h target p_local p_remote tmux_session_name conda_env fuel = some r) :
    ∃ pre post, r.2 = pre ++ Event.killSession tmux_session_name :: post
      ∧ ∀ e ∈ pre, e.isStart = false := by
  rcases hp : check_if_jp_server_is_running h 0 conda_env p_remote h.bashConda
    with ⟨r2, ev2, fs1⟩
  rw [hp] at hdown
  simp only at hdown
  subst hdown
  have hev2 : ∀ e ∈ ev2, e.isStart = false := by
    have hns := probe_no_start h 0 conda_env p_remote h.bashConda
    rw [hp] at hns
    exact hns
  have htm : check_tmux_session_running h tmux_session_name = (.ok true, [Event.tmuxLs]) := by
    have h2 := check_tmux_trace h tmux_session_name
    rcases hct : check_tmux_session_running h tmux_session_name with ⟨rt, evt⟩
    rw [hct] at hsess h2
    simp only at hsess h2
    rw [hsess, h2]
  have hpre : ∀ e ∈ [Event.localLsof p_local] ++ ev2 ++ [Event.tmuxLs], e.isStart = false := by
    intro e he
    simp at he
    rcases he with he | he | he
    · simp [he, Event.isStart]
    · exact hev2 e he
    · simp [he, Event.isStart]
  rcases hrc : check_port_in_use_remote h p_remote with ⟨rU, evU⟩
  have hevU : evU = [Event.remoteLsof p_remote] := by
    have h3 := check_remote_trace h p_remote
    rw [hrc] at h3
    exact h3
  subst hevU
  cases rU with
  | true =>
    simp [jp_start_func, check_local_none h p_local hfree, hp, htm, hrc,
          kill_tmux_session] at hr
    subst hr
    refine ⟨[Event.localLsof p_local] ++ ev2 ++ [Event.tmuxLs],
            [Event.remoteLsof p_remote], ?_, hpre⟩
    simp
  | false =>
    rcases hst : start_jupyter_server_remote h target tmux_session_name conda_env p_remote
      with ⟨rs, ev6⟩
    cases rs with
    | error e =>
      simp [jp_start_func, check_local_none h p_local hfree, hp, htm, hrc, hst,
            kill_tmux_session] at hr
      subst hr
      refine ⟨[Event.localLsof p_local] ++ ev2 ++ [Event.tmuxLs],
              [Event.remoteLsof p_remote] ++ ev6, ?_, hpre⟩
      simp
    | ok u =>
      rcases htn : tunnel_jupyter_ports h target p_local p_remote conda_env 1 fs1 fuel
        with _ | ⟨rt3, evT, fsT⟩
      · rw [jp_start_func] at hr
        simp only [check_local_none h p_local hfree, hp, htm, hrc, hst,
                   kill_tmux_session, htn] at hr
        simp at hr
      · cases rt3 with
        | error e3 =>
          simp [jp_start_func, check_local_none h p_local hfree, hp, htm, hrc, hst,
                kill_tmux_session, htn] at hr
          subst hr
          refine ⟨[Event.localLsof p_local] ++ ev2 ++ [Event.tmuxLs],
                  [Event.remoteLsof p_remote] ++ ev6 ++ evT, ?_, hpre⟩
          simp
        | ok u3 =>
          simp [jp_start_func, check_local_none h p_local hfree, hp, htm, hrc, hst,
                kill_tmux_session, htn] at hr
          subst hr
          refine ⟨[Event.localLsof p_local] ++ ev2 ++ [Event.tmuxLs],
                  [Event.remoteLsof p_remote] ++ ev6 ++ evT ++ [Event.openBrowser p_local],
                  ?_, hpre⟩
          simp

/-- Claim C5, witness: service down, stale session "jp" listed — the run
terminates and its trace kills the session before any start command. -/
theorem kill_before_start_w :
    ∃ r, jp_start_func hostDownStale "host1" 8000 8888 "jp" "py39" 5 = some r
      ∧ ∃ pre post, r.2 = pre ++ Event.killSession "jp" :: post
        ∧ ∀ e ∈ pre, e.isStart = false := by
  refine ⟨_, rfl, ?_⟩
  exact kill_before_start hostDownStale "host1" 8000 8888 "jp" "py39" 5 _ rfl rfl rfl rfl

/-- Claim C2: with the status probe reporting the service down on its first K
invocations and up thereafter, `tunnel_jupyter_ports` terminates (any fuel of
at least K+1 iterations suffices for the unbounded Python loop), issues
exactly K+1 status probes, each probe invocation preceded by the fixed
15-second sleep, and exactly one forwarding command. -/
theorem tunnel_poll_termination (h : Host) (target : String) (p_local p_remote : Nat)
    (conda_env : String) (fs : Bool) (K fuel : Nat)
    (hfwd : h.forwardOk = true)
    (hdown : ∀ j, j < K → probeRes h conda_env p_remote 0 fs j = .ok false)
    (hup : ∀ j, K ≤ j → probeRes h conda_env p_remote 0 fs j = .ok true)
    (hfuel : K + 1 ≤ fuel) :
    ∃ tr fs1,
      tunnel_jupyter_ports h target p_local p_remote conda_env 0 fs fuel =
        some (.ok (), tr, fs1)
      ∧ tr = ((List.range (K + 1)).flatMap
                (fun j => Event.sleep 15 :: probeTrace h conda_env p_remote 0 fs j))
              ++ [Event.forward p_local p_remote]
      ∧ tr.countP Event.isServerList = K + 1
      ∧ tr.countP (fun e => e == Event.forward p_local p_remote) = 1
      ∧ tr.countP (fun e => e == Event.sleep 15) = K + 1 := by
  obtain ⟨m, rfl⟩ : ∃ m, fuel = K + 1 + m := ⟨fuel - (K + 1), by omega⟩
  have hpoll := tunnel_poll_exact h conda_env p_remote K 0 fs m hdown (hup K (by omega))
  have hres : ∀ j, j < K + 1 → ∃ b, probeRes h conda_env p_remote 0 fs j = .ok b := by
    intro j hj
    rcases Nat.lt_or_ge j K with hlt | hge
    · exact ⟨false, hdown j hlt⟩
    · exact ⟨true, hup j hge⟩
  have hblocks1 : ∀ j, j < K + 1 →
      (Event.sleep 15 :: probeTrace h conda_env p_remote 0 fs j).countP
        Event.isServerList = 1 := by
    intro j hj
    obtain ⟨b, hb⟩ := hres j hj
    rw [probeRes] at hb
    rw [probeTrace, List.countP_cons]
    have hcnt := (probe_ok_counts h (0 + j) conda_env p_remote p_local p_remote _ b hb).1
    simp only [Nat.zero_add] at hcnt
    simp [hcnt, Event.isServerList]
  have hblocks2 : ∀ j, j < K + 1 →
      (Event.sleep 15 :: probeTrace h conda_env p_remote 0 fs j).countP
        (fun e => e == Event.forward p_local p_remote) = 0 := by
    intro j hj
    obtain ⟨b, hb⟩ := hres j hj
    rw [probeRes] at hb
    rw [probeTrace, List.countP_cons]
    have hcnt := (probe_ok_counts h (0 + j) conda_env p_remote p_local p_remote _ b hb).2.1
    simp only [Nat.zero_add] at hcnt
    simp [hcnt]
  have hblocks3 : ∀ j, j < K + 1 →
      (Event.sleep 15 :: probeTrace h conda_env p_remote 0 fs j).countP
        (fun e => e == Event.sleep 15) = 1 := by
    intro j hj
    obtain ⟨b, hb⟩ := hres j hj
    rw [probeRes] at hb
    rw [probeTrace, List.countP_cons]
    have hcnt := (probe_ok_counts h (0 + j) conda_env p_remote p_local p_remote _ b hb).2.2
    simp only [Nat.zero_add] at hcnt
    simp [hcnt]
  refine ⟨_, fsChain h conda_env p_remote 0 fs (K + 1), ?_, rfl, ?_, ?_, ?_⟩
  · rw [tunnel_jupyter_ports, hpoll]
    simp [hfwd]
  · rw [List.countP_append,
        bind_const_count _ Event.isServerList 1 (K + 1) hblocks1]
    simp [Event.isServerList]
  · rw [List.countP_append,
        bind_const_count _ (fun e => e == Event.forward p_local p_remote) 0 (K + 1) hblocks2]
    simp
  · rw [List.countP_append,
        bind_const_count _ (fun e => e == Event.sleep 15) 1 (K + 1) hblocks3]
    simp

/-- Claim C2, witness: K = 0 on a healthy host — one probe, one forward. -/
theorem tunnel_poll_termination_w :
    ∃ tr fs1,
      tunnel_jupyter_ports hostBase "host1" 8000 8888 "py39" 0 true 1 =
        some (.ok (), tr, fs1)
      ∧ tr = ((List.range 1).flatMap
                (fun j => Event.sleep 15 :: probeTrace hostBase "py39" 8888 0 true j))
              ++ [Event.forward 8000 8888]
      ∧ tr.countP Event.isServerList = 1
      ∧ tr.countP (fun e => e == Event.forward 8000 8888) = 1
      ∧ tr.countP (fun e => e == Event.sleep 15) = 1 := by
  have h0 := tunnel_poll_termination hostBase "host1" 8000 8888 "py39" true 0 1 rfl
    (fun j hj => absurd hj (by omega))
    (fun j hj => by
      simp only [probeRes, fsChain_true]
      rfl)
    (by omega)
  simpa using h0

end HpcDsUtils
